import Mathlib

/-!
Verification development for the grid-builder repository's core engine.

The Python source is shallowly embedded: float arithmetic is modelled as
exact rational (ℚ) arithmetic where the code is purely arithmetic, and as
real (ℝ) / complex (ℂ) arithmetic where the code takes square roots,
angles or exponentials.  Dictionaries keyed by id are modelled as
association lists in insertion order; Python exceptions are modelled with
`Except Unit`, threading the mutated state alongside the outcome exactly
as a `try`/`finally` block does.
-/

namespace GridSpec

/-! ### Standards table (european_grid_standards.py) -/

/-- FrequencyStandards.standard_frequency_range (± 50 mHz). -/
def standardFrequencyRange : ℚ := 50/1000

/-- FrequencyStandards.max_steady_state_frequency_deviation (200 mHz). -/
def maxSteadyStateFrequencyDeviation : ℚ := 200/1000

/-- FrequencyStandards.max_instantaneous_frequency_deviation (800 mHz). -/
def maxInstantaneousFrequencyDeviation : ℚ := 800/1000

/-- FrequencyStandards.fcr_deadband (10 mHz). -/
def fcrDeadband : ℚ := 10/1000

/-- FrequencyStandards.fcr_full_activation_frequency_deviation (200 mHz). -/
def fcrFullActivationFrequencyDeviation : ℚ := 200/1000

/-- EuropeanGridStandards.get_system_state: classify by frequency deviation. -/
def getSystemState (frequencyDeviation : ℚ) : String :=
  let absDev := |frequencyDeviation|
  if absDev ≤ standardFrequencyRange then "normal"
  else if absDev ≤ maxSteadyStateFrequencyDeviation then "alert"
  else "emergency"

/-- EuropeanGridStandards.calculate_fcr_activation: deadband, linear ramp,
saturation at ±1. -/
def calculateFcrActivation (frequencyDeviation : ℚ) : ℚ :=
  let absDev := |frequencyDeviation|
  if absDev ≤ fcrDeadband then 0
  else if fcrFullActivationFrequencyDeviation ≤ absDev then
    (if 0 < frequencyDeviation then 1 else -1)
  else
    let activationFrac :=
      (absDev - fcrDeadband) / (fcrFullActivationFrequencyDeviation - fcrDeadband)
    if 0 < frequencyDeviation then activationFrac else -activationFrac

/-! ### European grid game state (european_grid_game.py)

Only the fields read or written by `update_frequency`, `activate_fcr`,
`activate_frr` and `check_n_minus_1_security` are modelled.  A component's
`config_capacity` is the Python `comp['config']['capacity']` entry. -/

structure GameComp where
  status : String
  config_capacity : ℚ
  output : ℚ
  fcr : ℚ
  frr : ℚ
deriving DecidableEq

structure GameState where
  components : List GameComp
  load_demand : ℚ
  frequency_deviation : ℚ
  time_elapsed : ℚ
  fcr_available : ℚ
  frr_available : ℚ
  fcr_activations : ℕ
  frr_activations : ℕ
  frequency_violations : ℕ
  n_minus_1_failures : ℕ
  reliability_score : ℚ
  system_state : String
deriving DecidableEq

/-- Sum of `comp['output']` over online generators (capacity > 0). -/
def onlineGeneration (g : GameState) : ℚ :=
  ((g.components.filter
      (fun c => c.status = "online" && decide (0 < c.config_capacity))).map
    (fun c => c.output)).sum

/-- EuropeanGridGame.activate_fcr: FCR response plus its statistics side
effect, returned as (response, new state). -/
def activateFcrGame (g : GameState) (frequencyDeviation : ℚ) : ℚ × GameState :=
  let activation := calculateFcrActivation frequencyDeviation
  let fcrResponse := activation * g.fcr_available
  let g' := if 1/10 < |activation| then
      { g with fcr_activations := g.fcr_activations + 1 } else g
  (fcrResponse, g')

/-- EuropeanGridGame.activate_frr: FRR response plus its statistics side
effect, returned as (response, new state). -/
def activateFrrGame (g : GameState) (frequencyDeviation : ℚ) : ℚ × GameState :=
  if standardFrequencyRange < |frequencyDeviation| then
    let frrNeeded := |frequencyDeviation| * 10000
    let frrActivated := min frrNeeded (g.frr_available * (8/10))
    let g' := if 50 < frrActivated then
        { g with frr_activations := g.frr_activations + 1 } else g
    ((if frequencyDeviation < 0 then frrActivated else -frrActivated), g')
  else (0, g)

/-- Python float modulo with a positive divisor: a % b = a - b*⌊a/b⌋. -/
def pyMod (a b : ℚ) : ℚ := a - b * ⌊a / b⌋

/-- The frequency-dynamics part of EuropeanGridGame.update_frequency
(everything before the system-state assignment). -/
def freqDynamics (g : GameState) (dt : ℚ) : GameState :=
  let generation := onlineGeneration g
  let imbalance := generation - g.load_demand
  let dev1 := g.frequency_deviation + imbalance / 50000 * dt
  let g1 := { g with frequency_deviation := dev1 }
  let fcrStep := activateFcrGame g1 dev1
  let dev2 := dev1 - fcrStep.1 / 50000 * dt
  let g2 := { fcrStep.2 with frequency_deviation := dev2 }
  if pyMod g2.time_elapsed 30 < dt then
    let frrStep := activateFrrGame g2 dev2
    { frrStep.2 with frequency_deviation := dev2 - frrStep.1 / 50000 * dt }
  else g2

/-- The system-state assignment in update_frequency. -/
def classifyStep (g : GameState) : GameState :=
  { g with system_state := getSystemState g.frequency_deviation }

/-- The violation bookkeeping at the end of update_frequency. -/
def violationStep (g : GameState) : GameState :=
  if standardFrequencyRange < |g.frequency_deviation| then
    { g with frequency_violations := g.frequency_violations + 1,
             reliability_score := max 0 (g.reliability_score - 1/10) }
  else g

/-- EuropeanGridGame.update_frequency. -/
def updateFrequency (g : GameState) (dt : ℚ) : GameState :=
  violationStep (classifyStep (freqDynamics g dt))

/-- Largest online generator capacity (loop accumulating max, starting 0). -/
def maxOnlineGen (g : GameState) : ℚ :=
  g.components.foldl
    (fun acc c =>
      if c.status = "online" ∧ 0 < c.config_capacity then
        max acc c.config_capacity else acc) 0

/-- EuropeanGridGame.check_n_minus_1_security, with its statistics side
effect, returned as (secure, new state). -/
def checkNMinus1Security (g : GameState) : Bool × GameState :=
  let generation := onlineGeneration g
  let secure : Bool := decide (g.load_demand * (11/10) ≤ generation - maxOnlineGen g)
  let g' := if secure then g
    else { g with n_minus_1_failures := g.n_minus_1_failures + 1 }
  (secure, g')

/-! ### Properties of the standards functions -/

lemma getSystemState_normal (d : ℚ) (h : |d| ≤ 1/20) :
    getSystemState d = "normal" := by
  simp only [getSystemState, standardFrequencyRange]
  rw [if_pos (by linarith)]

lemma getSystemState_alert (d : ℚ) (h1 : 1/20 < |d|) (h2 : |d| ≤ 1/5) :
    getSystemState d = "alert" := by
  simp only [getSystemState, standardFrequencyRange, maxSteadyStateFrequencyDeviation]
  rw [if_neg (by linarith), if_pos (by linarith)]

lemma getSystemState_emergency (d : ℚ) (h : 1/5 < |d|) :
    getSystemState d = "emergency" := by
  simp only [getSystemState, standardFrequencyRange, maxSteadyStateFrequencyDeviation]
  rw [if_neg (by linarith), if_neg (by linarith)]

lemma fcr_deadband_eval (x : ℚ) (h : |x| ≤ 1/100) : calculateFcrActivation x = 0 := by
  simp only [calculateFcrActivation, fcrDeadband]
  rw [if_pos (by linarith)]

lemma fcr_sat_pos (x : ℚ) (h : 1/5 ≤ x) : calculateFcrActivation x = 1 := by
  have hx : (0:ℚ) < x := by linarith
  have habs : |x| = x := abs_of_pos hx
  simp only [calculateFcrActivation, fcrDeadband, fcrFullActivationFrequencyDeviation]
  rw [if_neg (by rw [habs]; linarith), if_pos (by rw [habs]; linarith), if_pos hx]

lemma fcr_sat_neg (x : ℚ) (h : x ≤ -(1/5)) : calculateFcrActivation x = -1 := by
  have hx : x ≤ 0 := by linarith
  have habs : |x| = -x := abs_of_nonpos hx
  simp only [calculateFcrActivation, fcrDeadband, fcrFullActivationFrequencyDeviation]
  rw [if_neg (by rw [habs]; linarith), if_pos (by rw [habs]; linarith),
    if_neg (by linarith)]

lemma fcr_ramp_pos (x : ℚ) (h1 : 1/100 < x) (h2 : x < 1/5) :
    calculateFcrActivation x = (x - 1/100) / (19/100) := by
  have hx : (0:ℚ) < x := by linarith
  have habs : |x| = x := abs_of_pos hx
  simp only [calculateFcrActivation, fcrDeadband, fcrFullActivationFrequencyDeviation]
  rw [if_neg (by rw [habs]; linarith), if_neg (by rw [habs]; linarith), if_pos hx, habs]
  norm_num

lemma fcr_ramp_neg (x : ℚ) (h1 : 1/100 < -x) (h2 : -x < 1/5) :
    calculateFcrActivation x = -((-x - 1/100) / (19/100)) := by
  have hx : x < 0 := by linarith
  have habs : |x| = -x := abs_of_nonpos (le_of_lt hx)
  simp only [calculateFcrActivation, fcrDeadband, fcrFullActivationFrequencyDeviation]
  rw [if_neg (by rw [habs]; linarith), if_neg (by rw [habs]; linarith),
    if_neg (by linarith), habs]
  norm_num

lemma fcr_ramp_abs (x : ℚ) (h1 : 1/100 < |x|) (h2 : |x| < 1/5) :
    |calculateFcrActivation x| = (|x| - 1/100) / (19/100) := by
  have hpos : 0 < (|x| - 1/100) / (19/100) := by
    apply div_pos <;> linarith
  rcases lt_trichotomy x 0 with hx | hx | hx
  · rw [abs_of_nonpos (le_of_lt hx)] at h1 h2 ⊢
    rw [fcr_ramp_neg x h1 h2, abs_neg, abs_of_pos]
    rwa [abs_of_nonpos (le_of_lt hx)] at hpos
  · subst hx; simp at h1; linarith
  · rw [abs_of_pos hx] at h1 h2 ⊢
    rw [fcr_ramp_pos x h1 h2, abs_of_pos]
    rwa [abs_of_pos hx] at hpos

/-- C3: the FCR activation curve is odd-symmetric, zero inside the deadband
(|x| ≤ 0.010), saturated at exactly ±1 beyond ±0.200, and of strictly
increasing magnitude on the open ramp 0.010 < |x| < 0.200. -/
theorem c3_fcr_activation_curve :
    (∀ x : ℚ, calculateFcrActivation (-x) = -calculateFcrActivation x) ∧
    (∀ x : ℚ, |x| ≤ 1/100 → calculateFcrActivation x = 0) ∧
    (∀ x : ℚ, 1/5 ≤ x → calculateFcrActivation x = 1) ∧
    (∀ x : ℚ, x ≤ -(1/5) → calculateFcrActivation x = -1) ∧
    (∀ x y : ℚ, 1/100 < |x| → |x| < |y| → |y| < 1/5 →
      |calculateFcrActivation x| < |calculateFcrActivation y|) := by
  refine ⟨fun x => ?_, fcr_deadband_eval, fcr_sat_pos, fcr_sat_neg,
    fun x y hx hxy hy => ?_⟩
  · by_cases h1 : |x| ≤ 1/100
    · rw [fcr_deadband_eval _ (by rwa [abs_neg]), fcr_deadband_eval _ h1, neg_zero]
    · push_neg at h1
      by_cases h2 : 1/5 ≤ |x|
      · rcases le_or_lt x 0 with hx | hx
        · rw [abs_of_nonpos hx] at h2
          rw [fcr_sat_pos (-x) h2, fcr_sat_neg x (by linarith)]
          norm_num
        · rw [abs_of_pos hx] at h2
          rw [fcr_sat_neg (-x) (by linarith), fcr_sat_pos x h2]
      · push_neg at h2
        rcases lt_trichotomy x 0 with hx | hx | hx
        · rw [abs_of_nonpos (le_of_lt hx)] at h1 h2
          rw [fcr_ramp_pos (-x) h1 h2, fcr_ramp_neg x h1 h2, neg_neg]
        · subst hx; simp at h1; linarith
        · rw [abs_of_pos hx] at h1 h2
          rw [fcr_ramp_neg (-x) (by rw [neg_neg]; exact h1) (by rw [neg_neg]; exact h2),
            fcr_ramp_pos x h1 h2, neg_neg]
  · rw [fcr_ramp_abs x hx (lt_trans hxy hy), fcr_ramp_abs y (lt_trans hx hxy) hy]
    have h19 : (0:ℚ) < 19/100 := by norm_num
    rw [div_lt_div_iff h19 h19]
    nlinarith

/-- Witness for C3 at concrete inputs: x = 0.05 and y = 0.1 on the ramp,
x = 0.005 in the deadband, x = ±0.3 in saturation. -/
theorem c3_fcr_activation_curve_witness :
    calculateFcrActivation (-(1/20)) = -calculateFcrActivation (1/20) ∧
    calculateFcrActivation (5/1000) = 0 ∧
    calculateFcrActivation (3/10) = 1 ∧
    calculateFcrActivation (-(3/10)) = -1 ∧
    |calculateFcrActivation (1/20)| < |calculateFcrActivation (1/10)| :=
  ⟨c3_fcr_activation_curve.1 (1/20),
   c3_fcr_activation_curve.2.1 (5/1000) (by norm_num [abs_of_pos]),
   c3_fcr_activation_curve.2.2.1 (3/10) (by norm_num),
   c3_fcr_activation_curve.2.2.2.1 (-(3/10)) (by norm_num),
   c3_fcr_activation_curve.2.2.2.2 (1/20) (1/10) (by norm_num [abs_of_pos])
     (by norm_num [abs_of_pos]) (by norm_num [abs_of_pos])⟩

/-- C4: classification by frequency deviation: 'normal' up to and including
0.050, 'alert' on (0.050, 0.200], 'emergency' above 0.200. -/
theorem c4_system_state_boundaries :
    (∀ d : ℚ, |d| ≤ 1/20 → getSystemState d = "normal") ∧
    (∀ d : ℚ, 1/20 < |d| → |d| ≤ 1/5 → getSystemState d = "alert") ∧
    (∀ d : ℚ, 1/5 < |d| → getSystemState d = "emergency") :=
  ⟨getSystemState_normal, getSystemState_alert, getSystemState_emergency⟩

/-- Witness for C4 at the boundary inputs named by the claim:
0.049 and 0.050 are normal, 0.150 alert, 0.801 emergency. -/
theorem c4_system_state_boundaries_witness :
    getSystemState (49/1000) = "normal" ∧ getSystemState (1/20) = "normal" ∧
    getSystemState (150/1000) = "alert" ∧ getSystemState (801/1000) = "emergency" :=
  ⟨c4_system_state_boundaries.1 _ (by norm_num [abs_of_pos]),
   c4_system_state_boundaries.1 _ (by norm_num [abs_of_pos]),
   c4_system_state_boundaries.2.1 _ (by norm_num [abs_of_pos]) (by norm_num [abs_of_pos]),
   c4_system_state_boundaries.2.2 _ (by norm_num [abs_of_pos])⟩

/-! ### C5: does lost N-1 security force the 'alert' state? -/

lemma violationStep_dev (g : GameState) :
    (violationStep g).frequency_deviation = g.frequency_deviation := by
  unfold violationStep; split_ifs <;> rfl

lemma violationStep_state (g : GameState) :
    (violationStep g).system_state = g.system_state := by
  unfold violationStep; split_ifs <;> rfl

/-- C5 counterexample state: no generators, 1000 MW load, zero frequency
deviation, reproducing a grid that has lost N-1 security while frequency
is nominal. -/
def c5State : GameState :=
  { components := [], load_demand := 1000, frequency_deviation := 0,
    time_elapsed := 0, fcr_available := 0, frr_available := 0,
    fcr_activations := 0, frr_activations := 0, frequency_violations := 0,
    n_minus_1_failures := 0, reliability_score := 100, system_state := "normal" }

/-- C5 is false on the code: with N-1 security lost and the updated
deviation inside the ±0.050 band, update_frequency classifies 'normal',
not 'alert' — the N-1 flag never feeds the classification. -/
theorem c5_counterexample :
    (checkNMinus1Security c5State).1 = false ∧
    |(updateFrequency c5State 1).frequency_deviation| ≤ 1/20 ∧
    (updateFrequency c5State 1).system_state ≠ "alert" := by
  refine ⟨?_, ?_, ?_⟩ <;>
    norm_num [checkNMinus1Security, updateFrequency, freqDynamics, classifyStep,
      violationStep, onlineGeneration, activateFcrGame, activateFrrGame, pyMod,
      calculateFcrActivation, getSystemState, c5State, maxOnlineGen,
      standardFrequencyRange, fcrDeadband, fcrFullActivationFrequencyDeviation,
      maxSteadyStateFrequencyDeviation, abs_of_nonpos, abs_of_nonneg] <;>
    decide

/-- C5 amended: the system-state classification depends only on the
frequency deviation; whenever the post-update deviation is within ±0.050
the state is 'normal' even if N-1 security is lost. -/
theorem c5_state_ignores_n1 (g : GameState) (dt : ℚ)
    (hn1 : (checkNMinus1Security g).1 = false)
    (hdev : |(updateFrequency g dt).frequency_deviation| ≤ 1/20) :
    (updateFrequency g dt).system_state = "normal" := by
  unfold updateFrequency at hdev ⊢
  rw [violationStep_state]
  rw [violationStep_dev] at hdev
  exact getSystemState_normal _ hdev

/-- Witness for C5's amended theorem at the concrete counterexample state. -/
theorem c5_state_ignores_n1_witness :
    (updateFrequency c5State 1).system_state = "normal" :=
  c5_state_ignores_n1 c5State 1
    (by norm_num [checkNMinus1Security, onlineGeneration, maxOnlineGen, c5State])
    (by norm_num [updateFrequency, freqDynamics, classifyStep, violationStep,
      onlineGeneration, activateFcrGame, activateFrrGame, pyMod,
      calculateFcrActivation, getSystemState, c5State,
      standardFrequencyRange, fcrDeadband, fcrFullActivationFrequencyDeviation,
      maxSteadyStateFrequencyDeviation, abs_of_nonpos, abs_of_nonneg])

/-! ### Unified grid engine data model (unified_grid_engine.py)

GridBus / GridBranch keep the fields that the admittance builder, the
Newton-Raphson solver and the contingency analyzer read or write.  Floats
are modelled as ℝ so that the solver's magnitudes/angles are expressible.
Numpy matrices are modelled as plain functions ℕ → ℕ → ℂ whose support
lies in the square [0, n) × [0, n). -/

structure GridBus where
  id : String
  voltage_magnitude : ℝ := 1
  voltage_angle : ℝ := 0
  load_p : ℝ := 0
  load_q : ℝ := 0
  gen_p : ℝ := 0
  gen_q : ℝ := 0
  gen_p_max : ℝ := 0
  voltage_min : ℝ := 9/10
  voltage_max : ℝ := 11/10
  is_slack : Bool := false

structure GridBranch where
  id : String
  from_bus : String
  to_bus : String
  resistance : ℝ
  reactance : ℝ
  susceptance : ℝ := 0
  rating_a : ℝ := 0
  is_online : Bool := true
  is_breaker_open : Bool := false
  flow_p_from : ℝ := 0
  flow_q_from : ℝ := 0
  flow_p_to : ℝ := 0
  flow_q_to : ℝ := 0
  losses_p : ℝ := 0
  losses_q : ℝ := 0
  loading_percent : ℝ := 0

/-- Position of a bus id in the engine's insertion-ordered bus dictionary
(`self._bus_index_map`); `none` models a KeyError. -/
def idxOf (bs : List GridBus) (bid : String) : Option ℕ :=
  bs.findIdx? (fun b => b.id = bid)

/-- Branch series impedance z = r + jx. -/
def zOf (br : GridBranch) : ℂ := ⟨br.resistance, br.reactance⟩

/-- addE M i j v adds v into entry (i, j): the `y_matrix[i, j] += v` step. -/
def addE (M : ℕ → ℕ → ℂ) (i j : ℕ) (v : ℂ) : ℕ → ℕ → ℂ :=
  fun a b => if a = i ∧ b = j then M a b + v else M a b

open Classical in
/-- One branch of the dense admittance build.  The Python guard
`abs(z_branch) < 1e-12` is encoded squared as `normSq z < 1e-24`. -/
noncomputable def denseStep (bs : List GridBus) (M : ℕ → ℕ → ℂ) (br : GridBranch) :
    Except Unit (ℕ → ℕ → ℂ) :=
  if br.is_online = false ∨ br.is_breaker_open = true then .ok M
  else
    match idxOf bs br.from_bus, idxOf bs br.to_bus with
    | some fi, some ti =>
        let z := zOf br
        if Complex.normSq z < 1/10^24 then .ok M
        else
          let yb := z⁻¹
          let ysh : ℂ := ⟨0, br.susceptance / 2⟩
          .ok (addE (addE (addE (addE M fi ti (-yb)) ti fi (-yb))
                fi fi (yb + ysh)) ti ti (yb + ysh))
    | _, _ => .error ()

/-- UnifiedGridEngine._build_dense_admittance_matrix. -/
noncomputable def buildDenseY (bs : List GridBus) (brs : List GridBranch) :
    Except Unit (ℕ → ℕ → ℂ) :=
  brs.foldlM (fun M br => denseStep bs M br) (fun _ _ => 0)

/-- Accumulator of the sparse build: off-diagonal (row, col, value)
triples plus the separately accumulated diagonal array. -/
def TripleAcc := List (ℕ × ℕ × ℂ) × (ℕ → ℂ)

/-- diagonal[k] += v. -/
def updD (d : ℕ → ℂ) (k : ℕ) (v : ℂ) : ℕ → ℂ :=
  fun j => if j = k then d j + v else d j

open Classical in
/-- One branch of the sparse admittance build. -/
noncomputable def sparseStep (bs : List GridBus) (acc : TripleAcc) (br : GridBranch) :
    Except Unit TripleAcc :=
  if br.is_online = false ∨ br.is_breaker_open = true then .ok acc
  else
    match idxOf bs br.from_bus, idxOf bs br.to_bus with
    | some fi, some ti =>
        let z := zOf br
        if Complex.normSq z < 1/10^24 then .ok acc
        else
          let yb := z⁻¹
          let ysh : ℂ := ⟨0, br.susceptance / 2⟩
          .ok (acc.1 ++ [(fi, ti, -yb), (ti, fi, -yb)],
               updD (updD acc.2 fi (yb + ysh)) ti (yb + ysh))
    | _, _ => .error ()

/-- Entry (i, j) of a scipy coordinate-format matrix: duplicate triples at
the same position are summed. -/
def tSum (ts : List (ℕ × ℕ × ℂ)) (i j : ℕ) : ℂ :=
  (ts.map (fun t => if t.1 = i ∧ t.2.1 = j then t.2.2 else 0)).sum

/-- UnifiedGridEngine._build_sparse_admittance_matrix: off-diagonal triples
are emitted per branch, the enumerated diagonal is appended afterwards, and
the csc_matrix constructor sums duplicate coordinates. -/
noncomputable def buildSparseY (bs : List GridBus) (brs : List GridBranch) :
    Except Unit (ℕ → ℕ → ℂ) :=
  (brs.foldlM (fun acc br => sparseStep bs acc br)
      (([] : List (ℕ × ℕ × ℂ)), fun _ => 0)).map
    (fun acc =>
      let triples := acc.1 ++ (List.range bs.length).map (fun k => (k, k, acc.2 k))
      fun i j => tSum triples i j)

/-! ### C9: admittance-matrix symmetry -/

lemma addE_apply (M : ℕ → ℕ → ℂ) (i j : ℕ) (v : ℂ) (a b : ℕ) :
    addE M i j v a b = if a = i ∧ b = j then M a b + v else M a b := rfl

/-- The total contribution one branch makes to entry (a, b). -/
def quadContrib (fi ti : ℕ) (u v : ℂ) (a b : ℕ) : ℂ :=
  (if a = fi ∧ b = ti then u else 0) + (if a = ti ∧ b = fi then u else 0)
    + (if a = fi ∧ b = fi then v else 0) + (if a = ti ∧ b = ti then v else 0)

lemma quad_value (M : ℕ → ℕ → ℂ) (fi ti : ℕ) (u v : ℂ) (a b : ℕ) :
    addE (addE (addE (addE M fi ti u) ti fi u) fi fi v) ti ti v a b
      = M a b + quadContrib fi ti u v a b := by
  simp only [addE_apply, quadContrib]
  split_ifs <;> ring

lemma quadContrib_symm (fi ti : ℕ) (u v : ℂ) (a b : ℕ) :
    quadContrib fi ti u v a b = quadContrib fi ti u v b a := by
  unfold quadContrib
  by_cases h1 : a = fi <;> by_cases h2 : a = ti <;>
    by_cases h3 : b = fi <;> by_cases h4 : b = ti <;>
    by_cases h5 : fi = ti <;>
    simp [h1, h2, h3, h4, h5] <;> ring

lemma denseStep_symm (bs : List GridBus) (M M' : ℕ → ℕ → ℂ) (br : GridBranch)
    (hM : ∀ a b, M a b = M b a) (h : denseStep bs M br = .ok M') :
    ∀ a b, M' a b = M' b a := by
  unfold denseStep at h
  split_ifs at h with h1
  · simp only [Except.ok.injEq] at h; subst h; exact hM
  · cases hf : idxOf bs br.from_bus with
    | none => rw [hf] at h; cases ht : idxOf bs br.to_bus <;> rw [ht] at h <;> simp at h
    | some fi =>
      cases ht : idxOf bs br.to_bus with
      | none => rw [hf, ht] at h; simp at h
      | some ti =>
        rw [hf, ht] at h
        dsimp only at h
        split_ifs at h with h2
        · simp only [Except.ok.injEq] at h; subst h; exact hM
        · simp only [Except.ok.injEq] at h
          subst h
          intro a b
          rw [quad_value, quad_value, hM a b, quadContrib_symm]

lemma foldDense_symm (bs : List GridBus) (brs : List GridBranch) :
    ∀ (M0 : ℕ → ℕ → ℂ), (∀ a b, M0 a b = M0 b a) →
    ∀ M, List.foldlM (fun M br => denseStep bs M br) M0 brs = .ok M →
    ∀ a b, M a b = M b a := by
  induction brs with
  | nil =>
    intro M0 h0 M h
    simp only [List.foldlM_nil] at h
    have : M0 = M := by simpa [pure, Except.pure] using h
    subst this; exact h0
  | cons br rest ih =>
    intro M0 h0 M h
    rw [List.foldlM_cons] at h
    cases hstep : denseStep bs M0 br with
    | error e => rw [hstep] at h; simp [Bind.bind, Except.bind] at h
    | ok M1 =>
      rw [hstep] at h
      simp only [Bind.bind, Except.bind] at h
      exact ih M1 (denseStep_symm bs M0 M1 br h0 hstep) M h

lemma tSum_nil (i j : ℕ) : tSum [] i j = 0 := by
  simp [tSum]

lemma tSum_cons (t : ℕ × ℕ × ℂ) (ts : List (ℕ × ℕ × ℂ)) (i j : ℕ) :
    tSum (t :: ts) i j = (if t.1 = i ∧ t.2.1 = j then t.2.2 else 0) + tSum ts i j := by
  simp [tSum]

lemma tSum_append (l1 l2 : List (ℕ × ℕ × ℂ)) (i j : ℕ) :
    tSum (l1 ++ l2) i j = tSum l1 i j + tSum l2 i j := by
  simp [tSum]

/-- The off-diagonal triple list is position-symmetric. -/
def SymmT (ts : List (ℕ × ℕ × ℂ)) : Prop :=
  ∀ i j, tSum ts i j = tSum ts j i

lemma tSum_pair_symm (fi ti : ℕ) (u : ℂ) (i j : ℕ) :
    tSum [(fi, ti, u), (ti, fi, u)] i j = tSum [(fi, ti, u), (ti, fi, u)] j i := by
  simp only [tSum_cons, tSum_nil]
  by_cases h1 : fi = i <;> by_cases h2 : ti = j <;>
    by_cases h3 : ti = i <;> by_cases h4 : fi = j <;>
    by_cases h5 : fi = ti <;> by_cases h6 : i = j <;>
    simp [h1, h2, h3, h4, h5, h6] <;> ring

lemma sparseStep_symm (bs : List GridBus) (acc acc' : TripleAcc) (br : GridBranch)
    (h1 : SymmT acc.1) (h : sparseStep bs acc br = .ok acc') :
    SymmT acc'.1 := by
  unfold sparseStep at h
  split_ifs at h with hskip
  · simp only [Except.ok.injEq] at h; subst h; exact h1
  · cases hf : idxOf bs br.from_bus with
    | none => rw [hf] at h; cases ht : idxOf bs br.to_bus <;> rw [ht] at h <;> simp at h
    | some fi =>
      cases ht : idxOf bs br.to_bus with
      | none => rw [hf, ht] at h; simp at h
      | some ti =>
        rw [hf, ht] at h
        dsimp only at h
        split_ifs at h with h2
        · simp only [Except.ok.injEq] at h; subst h; exact h1
        · simp only [Except.ok.injEq] at h
          subst h
          intro i j
          rw [tSum_append, tSum_append, h1 i j, tSum_pair_symm]

lemma foldSparse_symm (bs : List GridBus) (brs : List GridBranch) :
    ∀ (acc0 : TripleAcc), SymmT acc0.1 →
    ∀ acc, List.foldlM (fun acc br => sparseStep bs acc br) acc0 brs = .ok acc →
    SymmT acc.1 := by
  induction brs with
  | nil =>
    intro acc0 h0 acc h
    simp only [List.foldlM_nil] at h
    have : acc0 = acc := by simpa [pure, Except.pure] using h
    subst this; exact h0
  | cons br rest ih =>
    intro acc0 h0 acc h
    rw [List.foldlM_cons] at h
    cases hstep : sparseStep bs acc0 br with
    | error e => rw [hstep] at h; simp [Bind.bind, Except.bind] at h
    | ok acc1 =>
      rw [hstep] at h
      simp only [Bind.bind, Except.bind] at h
      exact ih acc1 (sparseStep_symm bs acc0 acc1 br h0 hstep) acc h

lemma tSum_diagTriples_symm (L : List ℕ) (d : ℕ → ℂ) (i j : ℕ) :
    tSum (L.map (fun k => (k, k, d k))) i j = tSum (L.map (fun k => (k, k, d k))) j i := by
  induction L with
  | nil => simp [tSum]
  | cons k rest ih =>
    simp only [List.map_cons, tSum_cons] at *
    rw [ih]
    by_cases h1 : k = i <;> by_cases h2 : k = j <;> simp [h1, h2]

/-- C9: for every bus/branch set for which the builders succeed, both the
dense and the sparse admittance matrix are symmetric. -/
theorem c9_admittance_matrix_symmetric (bs : List GridBus) (brs : List GridBranch) :
    (∀ M, buildDenseY bs brs = .ok M → ∀ i j, M i j = M j i) ∧
    (∀ M, buildSparseY bs brs = .ok M → ∀ i j, M i j = M j i) := by
  constructor
  · intro M h
    exact foldDense_symm bs brs (fun _ _ => 0) (fun a b => rfl) M h
  · intro M h i j
    unfold buildSparseY at h
    cases hfold : List.foldlM (fun acc br => sparseStep bs acc br)
        (([] : List (ℕ × ℕ × ℂ)), fun _ => (0:ℂ)) brs with
    | error e => rw [hfold] at h; simp [Except.map] at h
    | ok acc =>
      rw [hfold] at h
      simp only [Except.map, Except.ok.injEq] at h
      subst h
      have hsym : SymmT acc.1 :=
        foldSparse_symm bs brs (([], fun _ => 0)) (fun i j => by simp [tSum]) acc hfold
      dsimp only
      rw [tSum_append, tSum_append, hsym i j, tSum_diagTriples_symm]

/-! ### The radial 2-bus demo system (unified_grid_engine.py `__main__`)

Slack bus at 1.05 pu with 500 MW dispatched, PQ load bus drawing
400 MW + j100 MVAr, one line of 0.01 + j0.10 pu rated 600 MVA. -/

noncomputable def tbBus1 : GridBus :=
  { id := "BUS1", voltage_magnitude := 21/20, gen_p := 500, gen_p_max := 1000,
    is_slack := true }

noncomputable def tbBus2 : GridBus :=
  { id := "BUS2", load_p := 400, load_q := 100 }

noncomputable def tbBranch : GridBranch :=
  { id := "LINE1", from_bus := "BUS1", to_bus := "BUS2",
    resistance := 1/100, reactance := 1/10, rating_a := 600 }

noncomputable def tbBuses : List GridBus := [tbBus1, tbBus2]

noncomputable def tbBranches : List GridBranch := [tbBranch]

/-- The admittance matrix of the 2-bus system: y = 1/(0.01 + j0.10) on the
diagonal entries (0,0) and (1,1), -y on (0,1) and (1,0), zero elsewhere. -/
noncomputable def tbY : ℕ → ℕ → ℂ :=
  fun i j =>
    if i ≤ 1 ∧ j ≤ 1 then
      (if i = j then (zOf tbBranch)⁻¹ else -(zOf tbBranch)⁻¹)
    else 0

lemma tb_idx1 : idxOf tbBuses "BUS1" = some 0 := by
  simp [idxOf, tbBuses, tbBus1, tbBus2, List.findIdx?_cons]

lemma tb_idx2 : idxOf tbBuses "BUS2" = some 1 := by
  simp [idxOf, tbBuses, tbBus1, tbBus2, List.findIdx?_cons]

lemma tb_z_not_small : ¬ Complex.normSq (zOf tbBranch) < 1/10^24 := by
  simp only [zOf, tbBranch, Complex.normSq_mk]
  norm_num

lemma tb_ysh_zero : (⟨0, tbBranch.susceptance / 2⟩ : ℂ) = 0 := by
  simp [tbBranch, Complex.ext_iff]

/-- Result of the single dense-build step on the 2-bus system. -/
noncomputable def tbQuad : ℕ → ℕ → ℂ :=
  addE (addE (addE (addE (fun _ _ => 0) 0 1 (-(zOf tbBranch)⁻¹)) 1 0 (-(zOf tbBranch)⁻¹))
    0 0 ((zOf tbBranch)⁻¹ + ⟨0, tbBranch.susceptance / 2⟩))
    1 1 ((zOf tbBranch)⁻¹ + ⟨0, tbBranch.susceptance / 2⟩)

lemma tb_denseStep : denseStep tbBuses (fun _ _ => 0) tbBranch = .ok tbQuad := by
  unfold denseStep
  rw [if_neg (by simp [tbBranch])]
  rw [show tbBranch.from_bus = "BUS1" from rfl, show tbBranch.to_bus = "BUS2" from rfl]
  rw [tb_idx1, tb_idx2]
  dsimp only
  rw [if_neg tb_z_not_small]
  rfl

lemma tbQuad_eq_tbY : tbQuad = tbY := by
  funext i j
  simp only [tbQuad, addE, tbY, tb_ysh_zero, add_zero]
  rcases Nat.lt_or_ge i 2 with hi | hi
  · rcases Nat.lt_or_ge j 2 with hj | hj
    · interval_cases i <;> interval_cases j <;> norm_num
    · have h1 : ¬ j = 1 := by omega
      have h0 : ¬ j = 0 := by omega
      have h2 : ¬ (i ≤ 1 ∧ j ≤ 1) := by omega
      simp [h0, h1, h2]
  · have h1 : ¬ i = 1 := by omega
    have h0 : ¬ i = 0 := by omega
    have h2 : ¬ (i ≤ 1 ∧ j ≤ 1) := by omega
    simp [h0, h1, h2]

lemma tb_buildDenseY : buildDenseY tbBuses tbBranches = .ok tbY := by
  rw [buildDenseY]
  rw [show tbBranches = [tbBranch] from rfl]
  rw [List.foldlM_cons, tb_denseStep]
  simp only [List.foldlM_nil, Bind.bind, Except.bind, pure, Except.pure, Except.ok.injEq]
  exact tbQuad_eq_tbY

/-- Result of the single sparse-build step on the 2-bus system. -/
noncomputable def tbAcc : TripleAcc :=
  ([(0, 1, -(zOf tbBranch)⁻¹), (1, 0, -(zOf tbBranch)⁻¹)],
   updD (updD (fun _ => 0) 0 ((zOf tbBranch)⁻¹ + ⟨0, tbBranch.susceptance / 2⟩))
     1 ((zOf tbBranch)⁻¹ + ⟨0, tbBranch.susceptance / 2⟩))

lemma tb_sparseStep :
    sparseStep tbBuses (([] : List (ℕ × ℕ × ℂ)), fun _ => (0:ℂ)) tbBranch
      = .ok tbAcc := by
  unfold sparseStep
  rw [if_neg (by simp [tbBranch])]
  rw [show tbBranch.from_bus = "BUS1" from rfl, show tbBranch.to_bus = "BUS2" from rfl]
  rw [tb_idx1, tb_idx2]
  dsimp only
  rw [if_neg tb_z_not_small]
  rfl

lemma tb_buildSparseY : buildSparseY tbBuses tbBranches = .ok tbY := by
  rw [buildSparseY]
  rw [show tbBranches = [tbBranch] from rfl]
  rw [List.foldlM_cons, tb_sparseStep]
  simp only [List.foldlM_nil, Bind.bind, Except.bind, pure, Except.pure, Except.map,
    Except.ok.injEq]
  rw [show tbBuses.length = 2 from rfl]
  funext i j
  rw [show List.range 2 = [0, 1] from rfl]
  simp only [List.map_cons, List.map_nil, tSum_append, tSum_cons, tSum_nil, tbAcc,
    updD, tbY, tb_ysh_zero, add_zero]
  rcases Nat.lt_or_ge i 2 with hi | hi
  · rcases Nat.lt_or_ge j 2 with hj | hj
    · interval_cases i <;> interval_cases j <;> norm_num
    · have h1 : ¬ j = 1 := by omega
      have h0 : ¬ j = 0 := by omega
      have h2 : ¬ (i ≤ 1 ∧ j ≤ 1) := by omega
      have h3 : ¬ (0 = j) := by omega
      have h4 : ¬ (1 = j) := by omega
      simp [h0, h1, h2, h3, h4]
  · have h1 : ¬ i = 1 := by omega
    have h0 : ¬ i = 0 := by omega
    have h2 : ¬ (i ≤ 1 ∧ j ≤ 1) := by omega
    have h3 : ¬ (0 = i) := by omega
    have h4 : ¬ (1 = i) := by omega
    simp [h0, h1, h2, h3, h4]

/-- Witness for C9: on the 2-bus system both builders succeed and the
resulting matrix is symmetric. -/
theorem c9_admittance_matrix_symmetric_witness :
    buildDenseY tbBuses tbBranches = .ok tbY ∧
    buildSparseY tbBuses tbBranches = .ok tbY ∧
    tbY 0 1 = tbY 1 0 :=
  ⟨tb_buildDenseY, tb_buildSparseY,
   (c9_admittance_matrix_symmetric tbBuses tbBranches).1 tbY tb_buildDenseY 0 1⟩

/-! ### Newton-Raphson solver (_solve_newton_raphson_python)

The solver's per-iteration state is the complex voltage array, modelled as
a function ℕ → ℂ read on [0, n). -/

/-- UnifiedGridEngine.tolerance (1e-6). -/
noncomputable def nrTolerance : ℝ := 1/10^6

/-- base_mva (100.0). -/
noncomputable def baseMva : ℝ := 100

/-- buses[i] of the enumerated bus array. -/
noncomputable def busAt (bs : List GridBus) (i : ℕ) : GridBus := bs.getD i { id := "" }

/-- p_sched[i] = (gen_p - load_p) / base_mva. -/
noncomputable def pSched (bs : List GridBus) (i : ℕ) : ℝ :=
  ((busAt bs i).gen_p - (busAt bs i).load_p) / baseMva

/-- q_sched[i] = (gen_q - load_q) / base_mva. -/
noncomputable def qSched (bs : List GridBus) (i : ℕ) : ℝ :=
  ((busAt bs i).gen_q - (busAt bs i).load_q) / baseMva

/-- voltage[i] = voltage_magnitude * exp(1j * voltage_angle). -/
noncomputable def initV (bs : List GridBus) (i : ℕ) : ℂ :=
  ((busAt bs i).voltage_magnitude : ℂ) *
    Complex.exp (((busAt bs i).voltage_angle : ℂ) * Complex.I)

/-- s_calc[i] = (voltage ⊙ conj(Y @ voltage))[i]. -/
noncomputable def sCalc (n : ℕ) (Y : ℕ → ℕ → ℂ) (V : ℕ → ℂ) (i : ℕ) : ℂ :=
  V i * star (∑ j ∈ Finset.range n, Y i j * V j)

/-- One entry of the Newton-Raphson Jacobian built by _build_jacobian.
Only the ΔP rows (r < n) are ever assigned: the diagonal of the top-left
block, the matching entry of the top-right block, and the top-left
off-diagonal terms.  Rows n ≤ r < 2n stay at their numpy-zeros value. -/
noncomputable def jacEntry (n : ℕ) (Y : ℕ → ℕ → ℂ) (V : ℕ → ℂ) (r c : ℕ) : ℝ :=
  if r < n then
    if c < n then
      if r = c then
        -(V r).im * (Y r r).re + (V r).re * (Y r r).im
      else
        Complex.abs (V r) * Complex.abs (V c) *
          ((Y r c).re * Real.sin ((V r).arg - (V c).arg) -
           (Y r c).im * Real.cos ((V r).arg - (V c).arg))
    else if c = r + n then
      (V r).re * (Y r r).re + (V r).im * (Y r r).im
    else 0
  else 0

/-- The Jacobian as a 2n × 2n matrix. -/
noncomputable def jacMatrix (n : ℕ) (Y : ℕ → ℕ → ℂ) (V : ℕ → ℂ) :
    Matrix (Fin (2*n)) (Fin (2*n)) ℝ :=
  Matrix.of fun r c => jacEntry n Y V r.val c.val

/-- rhs = concatenate([delta_p, delta_q]). -/
def rhsVec (n : ℕ) (dp dq : ℕ → ℝ) : Fin (2*n) → ℝ :=
  fun r => if r.val < n then dp r.val else dq (r.val - n)

open Classical in
/-- np.linalg.solve: raises LinAlgError exactly on a singular matrix. -/
noncomputable def linSolve {m : ℕ} (A : Matrix (Fin m) (Fin m) ℝ) (b : Fin m → ℝ) :
    Option (Fin m → ℝ) :=
  if A.det = 0 then none else some (A⁻¹.mulVec b)

/-- Voltage update: v_mag = |v| + Δv, v_ang = arg v + Δθ, v = v_mag·exp(jθ). -/
noncomputable def updateV (n : ℕ) (V : ℕ → ℂ) (delta : Fin (2*n) → ℝ) : ℕ → ℂ :=
  fun i =>
    if h : i < n then
      ((Complex.abs (V i) + delta ⟨n + i, by omega⟩ : ℝ) : ℂ) *
        Complex.exp ((((V i).arg + delta ⟨i, by omega⟩ : ℝ) : ℂ) * Complex.I)
    else V i

/-- How a Newton-Raphson run ends: the Python function's return value is
True exactly for `conv`; `singular` and `exhausted` both return False and
differ only in the logged failure reason. -/
inductive NRKind where
  | conv
  | singular
  | exhausted
deriving DecidableEq

/-- The boolean the Python solver actually returns. -/
def nrReturn : NRKind → Bool
  | .conv => true
  | .singular => false
  | .exhausted => false

open Classical in
/-- The `for iteration in range(max_iterations)` loop of
_solve_newton_raphson_python, carrying the current voltage array. -/
noncomputable def nrLoop (n : ℕ) (Y : ℕ → ℕ → ℂ) (p q : ℕ → ℝ) (tol : ℝ) :
    ℕ → (ℕ → ℂ) → NRKind × (ℕ → ℂ)
  | 0, V => (.exhausted, V)
  | (fuel+1), V =>
      let dp := fun i => p i - (sCalc n Y V i).re
      let dq := fun i => q i - (sCalc n Y V i).im
      if ∀ i < n, |dp i| < tol ∧ |dq i| < tol then (.conv, V)
      else
        match linSolve (jacMatrix n Y V) (rhsVec n dp dq) with
        | none => (.singular, V)
        | some delta => nrLoop n Y p q tol fuel (updateV n V delta)

/-- Write converged voltages back into the bus records. -/
noncomputable def writeBackVoltages (bs : List GridBus) (V : ℕ → ℂ) : List GridBus :=
  bs.mapIdx (fun i b =>
    { b with voltage_magnitude := Complex.abs (V i), voltage_angle := (V i).arg })

/-- The method _solve_newton_raphson_python: voltages are written back only on
convergence; the exit kind records which failure path was taken. -/
noncomputable def nrSolve (bs : List GridBus) (Y : ℕ → ℕ → ℂ) (maxIter : ℕ) :
    NRKind × List GridBus :=
  let r := nrLoop bs.length Y (pSched bs) (qSched bs) nrTolerance maxIter (initV bs)
  if r.1 = .conv then (.conv, writeBackVoltages bs r.2) else (r.1, bs)

/-- Bus lookup by id (`self.buses[...]`). -/
def findBus (bs : List GridBus) (bid : String) : Option GridBus :=
  bs.find? (fun b => b.id = bid)

open Classical in
/-- UnifiedGridEngine._calculate_branch_flows.  Offline or open branches
are skipped; a lookup of a missing endpoint is unreachable after a
successful admittance build (add_branch validates the endpoints) and is
modelled as a skip. -/
noncomputable def calcBranchFlows (bs : List GridBus) (brs : List GridBranch) :
    List GridBranch :=
  brs.map (fun br =>
    if br.is_online = false ∨ br.is_breaker_open = true then br
    else
      match findBus bs br.from_bus, findBus bs br.to_bus with
      | some fb, some tb =>
          let vf : ℂ := (fb.voltage_magnitude : ℂ) *
            Complex.exp ((fb.voltage_angle : ℂ) * Complex.I)
          let vt : ℂ := (tb.voltage_magnitude : ℂ) *
            Complex.exp ((tb.voltage_angle : ℂ) * Complex.I)
          let z := zOf br
          let yb : ℂ := if 1/10^24 < Complex.normSq z then z⁻¹ else 0
          let sf := vf * star ((vf - vt) * yb)
          let st := vt * star ((vt - vf) * yb)
          { br with
              flow_p_from := sf.re * baseMva, flow_q_from := sf.im * baseMva,
              flow_p_to := st.re * baseMva, flow_q_to := st.im * baseMva,
              losses_p := (sf + st).re * baseMva, losses_q := (sf + st).im * baseMva,
              loading_percent :=
                if 0 < br.rating_a then Complex.abs sf * baseMva / br.rating_a * 100
                else br.loading_percent }
      | _, _ => br)

open Classical in
/-- UnifiedGridEngine.solve_power_flow restricted to its default
newton_raphson method: empty system short-circuits to False, the matrix
build may raise, branch flows are recomputed only after convergence. -/
noncomputable def solvePowerFlow (bs : List GridBus) (brs : List GridBranch)
    (maxIter : ℕ) : (List GridBus × List GridBranch) × Except Unit Bool :=
  if bs.length = 0 then ((bs, brs), .ok false)
  else
    match (if 100 < bs.length then buildSparseY bs brs else buildDenseY bs brs) with
    | .error e => ((bs, brs), .error e)
    | .ok Y =>
        let res := nrSolve bs Y maxIter
        if nrReturn res.1 = true then ((res.2, calcBranchFlows res.2 brs), .ok true)
        else ((bs, brs), .ok false)

/-! ### The Jacobian is always singular: its ΔQ rows are never filled -/

lemma jacEntry_lower_zero (n : ℕ) (Y : ℕ → ℕ → ℂ) (V : ℕ → ℂ) (r c : ℕ)
    (h : n ≤ r) : jacEntry n Y V r c = 0 := by
  unfold jacEntry
  rw [if_neg (by omega)]

lemma jacMatrix_det_zero (n : ℕ) (Y : ℕ → ℕ → ℂ) (V : ℕ → ℂ) (hn : 1 ≤ n) :
    (jacMatrix n Y V).det = 0 := by
  apply Matrix.det_eq_zero_of_row_eq_zero (⟨n, by omega⟩ : Fin (2*n))
  intro j
  exact jacEntry_lower_zero n Y V n j.val le_rfl

lemma linSolve_jac_none (n : ℕ) (Y : ℕ → ℕ → ℂ) (V : ℕ → ℂ) (b : Fin (2*n) → ℝ)
    (hn : 1 ≤ n) : linSolve (jacMatrix n Y V) b = none := by
  unfold linSolve
  rw [if_pos (jacMatrix_det_zero n Y V hn)]

/-- With at least one bus, a Newton-Raphson iteration either converges on
the spot or dies on the singular Jacobian: the voltage update is
unreachable. -/
lemma nrLoop_step (n : ℕ) (Y : ℕ → ℕ → ℂ) (p q : ℕ → ℝ) (tol : ℝ) (fuel : ℕ)
    (V : ℕ → ℂ) (hn : 1 ≤ n) :
    nrLoop n Y p q tol (fuel+1) V =
      if (∀ i < n, |p i - (sCalc n Y V i).re| < tol ∧
          |q i - (sCalc n Y V i).im| < tol) then (.conv, V)
      else (.singular, V) := by
  rw [nrLoop]
  split_ifs with h
  · rfl
  · rw [linSolve_jac_none _ _ _ _ hn]

/-! ### Evaluating the solver on the 2-bus demo system -/

lemma tb_busAt0 : busAt tbBuses 0 = tbBus1 := rfl

lemma tb_busAt1 : busAt tbBuses 1 = tbBus2 := rfl

lemma tb_initV0 : initV tbBuses 0 = ((21/20 : ℝ) : ℂ) := by
  unfold initV
  rw [tb_busAt0]
  rw [show tbBus1.voltage_angle = (0:ℝ) from rfl,
    show tbBus1.voltage_magnitude = (21/20:ℝ) from rfl]
  simp

lemma tb_initV1 : initV tbBuses 1 = 1 := by
  unfold initV
  rw [tb_busAt1]
  rw [show tbBus2.voltage_angle = (0:ℝ) from rfl,
    show tbBus2.voltage_magnitude = (1:ℝ) from rfl]
  simp

lemma tb_y_re : ((zOf tbBranch)⁻¹).re = 100/101 := by
  rw [show zOf tbBranch = ⟨1/100, 1/10⟩ from rfl, Complex.inv_re, Complex.normSq_mk]
  norm_num

lemma tb_y_im : ((zOf tbBranch)⁻¹).im = -(1000/101) := by
  rw [show zOf tbBranch = ⟨1/100, 1/10⟩ from rfl, Complex.inv_im, Complex.normSq_mk]
  norm_num

lemma tb_sum0 : (∑ j ∈ Finset.range 2, tbY 0 j * initV tbBuses j)
    = (zOf tbBranch)⁻¹ * ((21/20 : ℝ) : ℂ) - (zOf tbBranch)⁻¹ := by
  rw [Finset.sum_range_succ, Finset.sum_range_succ, Finset.sum_range_zero]
  rw [tb_initV0, tb_initV1]
  rw [show tbY 0 0 = (zOf tbBranch)⁻¹ by norm_num [tbY]]
  rw [show tbY 0 1 = -(zOf tbBranch)⁻¹ by norm_num [tbY]]
  ring

lemma tb_pSched0 : pSched tbBuses 0 = 5 := by
  unfold pSched
  rw [tb_busAt0]
  rw [show tbBus1.gen_p = (500:ℝ) from rfl, show tbBus1.load_p = (0:ℝ) from rfl]
  rw [baseMva]
  norm_num

lemma tb_dp0 : pSched tbBuses 0 - (sCalc 2 tbY (initV tbBuses) 0).re = 1999/404 := by
  unfold sCalc
  rw [tb_sum0, tb_initV0, tb_pSched0]
  simp only [Complex.star_def, Complex.mul_re, Complex.mul_im, Complex.sub_re,
    Complex.sub_im, Complex.conj_re, Complex.conj_im, Complex.ofReal_re,
    Complex.ofReal_im, tb_y_re, tb_y_im]
  norm_num

lemma tb_not_conv :
    ¬ (∀ i < 2, |pSched tbBuses i - (sCalc 2 tbY (initV tbBuses) i).re| < nrTolerance ∧
        |qSched tbBuses i - (sCalc 2 tbY (initV tbBuses) i).im| < nrTolerance) := by
  intro h
  have h0 := (h 0 (by norm_num)).1
  rw [tb_dp0, nrTolerance, abs_of_pos (by norm_num)] at h0
  norm_num at h0

lemma tb_nrLoop :
    nrLoop 2 tbY (pSched tbBuses) (qSched tbBuses) nrTolerance 20 (initV tbBuses)
      = (.singular, initV tbBuses) := by
  rw [show (20:ℕ) = 19+1 from rfl, nrLoop_step 2 _ _ _ _ 19 _ (by norm_num)]
  rw [if_neg tb_not_conv]

lemma tb_nrSolve : nrSolve tbBuses tbY 20 = (.singular, tbBuses) := by
  unfold nrSolve
  rw [show tbBuses.length = 2 from rfl, tb_nrLoop]
  rfl

lemma tb_nrSolve0 : nrSolve tbBuses tbY 0 = (.exhausted, tbBuses) := by
  unfold nrSolve
  rw [show nrLoop tbBuses.length tbY (pSched tbBuses) (qSched tbBuses) nrTolerance 0
      (initV tbBuses) = (.exhausted, initV tbBuses) from rfl]
  rfl

lemma tb_solvePF :
    solvePowerFlow tbBuses tbBranches 20 = ((tbBuses, tbBranches), .ok false) := by
  unfold solvePowerFlow
  rw [if_neg (show ¬tbBuses.length = 0 by norm_num [tbBuses])]
  rw [if_neg (show ¬100 < tbBuses.length by norm_num [tbBuses])]
  rw [tb_buildDenseY]
  dsimp only
  rw [tb_nrSolve]
  rfl

/-- C1 is violated by the code: on the repository's own radial 2-bus demo
system (slack + PQ load well within generation capacity), the default
Newton-Raphson solve returns non-convergence on the very first iteration,
because _build_jacobian never fills the ΔQ rows and the resulting singular
Jacobian makes np.linalg.solve raise on every iteration with a nonzero
mismatch. -/
theorem c1_two_bus_newton_raphson_fails :
    solvePowerFlow tbBuses tbBranches 20 = ((tbBuses, tbBranches), .ok false) :=
  tb_solvePF

/-- C8 counterexample: a singular-Jacobian failure (the 2-bus system) and a
plain iteration-budget exhaustion (max_iterations = 0) produce identical
return values, so the caller cannot distinguish them from the result. -/
theorem c8_counterexample :
    (nrSolve tbBuses tbY 20).1 = .singular ∧
    (nrSolve tbBuses tbY 0).1 = .exhausted ∧
    nrReturn (nrSolve tbBuses tbY 20).1 = nrReturn (nrSolve tbBuses tbY 0).1 :=
  ⟨by rw [tb_nrSolve], by rw [tb_nrSolve0],
   by rw [tb_nrSolve, tb_nrSolve0]; rfl⟩


/-- C8 amended: both failure modes return the normal value False rather
than raising; the singular-Jacobian reason is only logged, so the returned
result does not distinguish the two. -/
theorem c8_nonconvergence_returns_false (bs1 bs2 : List GridBus)
    (Y1 Y2 : ℕ → ℕ → ℂ) (it1 it2 : ℕ)
    (h1 : (nrSolve bs1 Y1 it1).1 = .singular)
    (h2 : (nrSolve bs2 Y2 it2).1 = .exhausted) :
    nrReturn (nrSolve bs1 Y1 it1).1 = false ∧
    nrReturn (nrSolve bs2 Y2 it2).1 = false ∧
    nrReturn (nrSolve bs1 Y1 it1).1 = nrReturn (nrSolve bs2 Y2 it2).1 := by
  rw [h1, h2]
  exact ⟨rfl, rfl, rfl⟩

/-- Witness for C8's amended theorem at the concrete inputs of the
counterexample. -/
theorem c8_nonconvergence_returns_false_witness :
    nrReturn (nrSolve tbBuses tbY 20).1 = false ∧
    nrReturn (nrSolve tbBuses tbY 0).1 = false ∧
    nrReturn (nrSolve tbBuses tbY 20).1 = nrReturn (nrSolve tbBuses tbY 0).1 :=
  c8_nonconvergence_returns_false tbBuses tbBuses tbY tbY 20 0
    (by rw [tb_nrSolve]) (by rw [tb_nrSolve0])

/-- C10: a Newton-Raphson solve that returns unconverged (for either
failure reason) leaves every bus voltage and every branch flow field
exactly as they were: voltages are written back and flows recomputed only
on convergence. -/
theorem c10_failed_solve_preserves_state (bs : List GridBus)
    (brs : List GridBranch) (maxIter : ℕ)
    (h : (solvePowerFlow bs brs maxIter).2 = .ok false) :
    (solvePowerFlow bs brs maxIter).1 = (bs, brs) := by
  unfold solvePowerFlow at h ⊢
  by_cases h0 : bs.length = 0
  · rw [if_pos h0]
  · rw [if_neg h0] at h ⊢
    cases hb : (if 100 < bs.length then buildSparseY bs brs else buildDenseY bs brs) with
    | error e => rfl
    | ok Y =>
      rw [hb] at h
      dsimp only at h ⊢
      split_ifs at h ⊢ with hc
      · simp at h
      · rfl

/-- Witness for C10 at the 2-bus system, whose solve returns unconverged. -/
theorem c10_failed_solve_preserves_state_witness :
    (solvePowerFlow tbBuses tbBranches 20).2 = .ok false ∧
    (solvePowerFlow tbBuses tbBranches 20).1 = (tbBuses, tbBranches) :=
  ⟨by rw [tb_solvePF], c10_failed_solve_preserves_state tbBuses tbBranches 20
    (by rw [tb_solvePF])⟩

/-! ### N-1 contingency analysis (run_n1_contingency_analysis) -/

structure Contingency where
  cid : String
  ctype : String
  component_id : String

structure ContingencyResult where
  contingency_id : String
  component_type : String
  component_id : String
  converged : Bool
  max_voltage_violation : ℝ := 0
  max_thermal_violation : ℝ := 0
  load_shed : ℝ := 0
  critical : Bool := false

/-- Assignment `self.branches[bid].is_online = v`: first-match update of the branch
dictionary (ids are unique in a Python dict). -/
def setBranchOnline : List GridBranch → String → Bool → List GridBranch
  | [], _, _ => []
  | b :: rest, bid, v =>
      if b.id = bid then { b with is_online := v } :: rest
      else b :: setBranchOnline rest bid v

/-- Assignment `self.buses[bid].gen_p = p; self.buses[bid].gen_q = q`. -/
noncomputable def setBusPQ : List GridBus → String → ℝ → ℝ → List GridBus
  | [], _, _, _ => []
  | b :: rest, bid, p, q =>
      if b.id = bid then { b with gen_p := p, gen_q := q } :: rest
      else b :: setBusPQ rest bid p q

/-- Branch lookup by id. -/
def findBranch (brs : List GridBranch) (bid : String) : Option GridBranch :=
  brs.find? (fun b => b.id = bid)

/-- UnifiedGridEngine._save_system_state: branch online flags and
generator P/Q, keyed by id. -/
noncomputable def saveSystemState (bs : List GridBus) (brs : List GridBranch) :
    List (String × Bool) × List (String × ℝ × ℝ) :=
  (brs.map (fun b => (b.id, b.is_online)), bs.map (fun b => (b.id, b.gen_p, b.gen_q)))

/-- UnifiedGridEngine._restore_system_state. -/
noncomputable def restoreSystemState (bs : List GridBus) (brs : List GridBranch)
    (st : List (String × Bool) × List (String × ℝ × ℝ)) :
    List GridBus × List GridBranch :=
  (st.2.foldl (fun acc e => setBusPQ acc e.1 e.2.1 e.2.2) bs,
   st.1.foldl (fun acc e => setBranchOnline acc e.1 e.2) brs)

/-- Applying one contingency: disable the branch, or zero the generator;
a missing component id raises KeyError. -/
noncomputable def applyContingency (bs : List GridBus) (brs : List GridBranch)
    (c : Contingency) : (List GridBus × List GridBranch) × Except Unit Unit :=
  if c.ctype = "line" then
    match findBranch brs c.component_id with
    | none => ((bs, brs), .error ())
    | some _ => ((bs, setBranchOnline brs c.component_id false), .ok ())
  else if c.ctype = "generator" then
    match findBus bs c.component_id with
    | none => ((bs, brs), .error ())
    | some _ => ((setBusPQ bs c.component_id 0 0, brs), .ok ())
  else ((bs, brs), .ok ())

open Classical in
/-- The violation scan of _run_single_contingency: worst voltage shortfall
or excess over the bus limits and worst thermal overload, both only
computed after a converged solve. -/
noncomputable def analyzeContingency (bs : List GridBus) (brs : List GridBranch)
    (converged : Bool) : ℝ × ℝ :=
  if converged then
    (bs.foldl (fun acc b =>
        if b.voltage_magnitude < b.voltage_min then
          max acc (b.voltage_min - b.voltage_magnitude)
        else if b.voltage_max < b.voltage_magnitude then
          max acc (b.voltage_magnitude - b.voltage_max)
        else acc) 0,
     brs.foldl (fun acc br =>
        if 100 < br.loading_percent then max acc (br.loading_percent - 100)
        else acc) 0)
  else (0, 0)

open Classical in
/-- UnifiedGridEngine._run_single_contingency: snapshot, perturb, solve,
analyze, and restore the snapshot on every path (the `finally` block). -/
noncomputable def runSingleContingency (bs : List GridBus) (brs : List GridBranch)
    (maxIter : ℕ) (c : Contingency) :
    (List GridBus × List GridBranch) × Except Unit ContingencyResult :=
  let saved := saveSystemState bs brs
  match applyContingency bs brs c with
  | (net1, .error e) => (restoreSystemState net1.1 net1.2 saved, .error e)
  | (net1, .ok _) =>
      match solvePowerFlow net1.1 net1.2 maxIter with
      | (net2, .error e) => (restoreSystemState net2.1 net2.2 saved, .error e)
      | (net2, .ok converged) =>
          let viol := analyzeContingency net2.1 net2.2 converged
          let result : ContingencyResult :=
            { contingency_id := c.cid, component_type := c.ctype,
              component_id := c.component_id, converged := converged,
              max_voltage_violation := viol.1, max_thermal_violation := viol.2,
              critical := if converged = false ∨ 5/100 < viol.1 ∨ 20 < viol.2
                then true else false }
          (restoreSystemState net2.1 net2.2 saved, .ok result)

open Classical in
/-- The contingency list of run_n1_contingency_analysis: lines rated at
least 100 MVA and generators of at least 100 MW. -/
noncomputable def genContingencies (bs : List GridBus) (brs : List GridBranch) :
    List Contingency :=
  (brs.filter (fun br => (100:ℝ) ≤ br.rating_a)).map
      (fun br => { cid := "line_" ++ br.id, ctype := "line", component_id := br.id })
    ++ (bs.filter (fun b => (100:ℝ) ≤ b.gen_p_max)).map
      (fun b => { cid := "gen_" ++ b.id, ctype := "generator", component_id := b.id })

/-- The method _run_contingencies_sequential: one contingency at a time; an exception
is caught, recorded as a non-converged critical result, and the batch
continues. -/
noncomputable def runContingenciesSeq (maxIter : ℕ) :
    List Contingency → List GridBus × List GridBranch → List ContingencyResult →
    (List GridBus × List GridBranch) × List ContingencyResult
  | [], net, results => (net, results)
  | c :: rest, net, results =>
      match runSingleContingency net.1 net.2 maxIter c with
      | (net', .ok r) => runContingenciesSeq maxIter rest net' (results ++ [r])
      | (net', .error _) =>
          runContingenciesSeq maxIter rest net'
            (results ++ [{ contingency_id := c.cid, component_type := c.ctype,
                           component_id := c.component_id, converged := false,
                           critical := true }])

/-- run_n1_contingency_analysis, sequential path. -/
noncomputable def runN1ContingencyAnalysis (bs : List GridBus) (brs : List GridBranch)
    (maxIter : ℕ) : (List GridBus × List GridBranch) × List ContingencyResult :=
  runContingenciesSeq maxIter (genContingencies bs brs) (bs, brs) []

/-- The state C2 talks about: every branch's id and online flag. -/
def projBranches (brs : List GridBranch) : List (String × Bool) :=
  brs.map (fun b => (b.id, b.is_online))

/-- The state C2 talks about: every bus's id and generator P/Q. -/
noncomputable def projBuses (bs : List GridBus) : List (String × ℝ × ℝ) :=
  bs.map (fun b => (b.id, b.gen_p, b.gen_q))

/-! ### C2: contingency analysis restores online flags and generator P/Q -/

lemma projBuses_fst (bs : List GridBus) :
    (projBuses bs).map Prod.fst = bs.map GridBus.id := by
  simp [projBuses, List.map_map, Function.comp]

lemma projBranches_fst (brs : List GridBranch) :
    (projBranches brs).map Prod.fst = brs.map GridBranch.id := by
  simp [projBranches, List.map_map, Function.comp]

lemma setBranchOnline_ids (brs : List GridBranch) (bid : String) (v : Bool) :
    (setBranchOnline brs bid v).map GridBranch.id = brs.map GridBranch.id := by
  induction brs with
  | nil => rfl
  | cons b rest ih =>
    unfold setBranchOnline
    split_ifs <;> simp [ih]

lemma setBusPQ_ids (bs : List GridBus) (bid : String) (p q : ℝ) :
    (setBusPQ bs bid p q).map GridBus.id = bs.map GridBus.id := by
  induction bs with
  | nil => rfl
  | cons b rest ih =>
    unfold setBusPQ
    split_ifs <;> simp [ih]

lemma writeBackVoltages_ids (bs : List GridBus) (V : ℕ → ℂ) :
    (writeBackVoltages bs V).map GridBus.id = bs.map GridBus.id := by
  unfold writeBackVoltages
  apply List.ext_getElem
  · simp
  · intro i h1 h2
    simp

lemma calcBranchFlows_ids (bs : List GridBus) (brs : List GridBranch) :
    (calcBranchFlows bs brs).map GridBranch.id = brs.map GridBranch.id := by
  unfold calcBranchFlows
  rw [List.map_map]
  apply List.map_congr_left
  intro br _
  dsimp only [Function.comp]
  split_ifs <;>
    first
| rfl
    | (cases findBus bs br.from_bus <;> cases findBus bs br.to_bus <;> rfl)

lemma nrSolve_ids (bs : List GridBus) (Y : ℕ → ℕ → ℂ) (it : ℕ) :
    ((nrSolve bs Y it).2).map GridBus.id = bs.map GridBus.id := by
  unfold nrSolve
  dsimp only
  split_ifs
  · exact writeBackVoltages_ids bs _
  · rfl

lemma solvePowerFlow_ids (bs : List GridBus) (brs : List GridBranch) (it : ℕ) :
    ((solvePowerFlow bs brs it).1.1).map GridBus.id = bs.map GridBus.id ∧
    ((solvePowerFlow bs brs it).1.2).map GridBranch.id = brs.map GridBranch.id := by
  unfold solvePowerFlow
  by_cases h0 : bs.length = 0
  · rw [if_pos h0]
    exact ⟨rfl, rfl⟩
  · rw [if_neg h0]
    cases hb : (if 100 < bs.length then buildSparseY bs brs else buildDenseY bs brs) with
    | error e => exact ⟨rfl, rfl⟩
    | ok Y =>
      dsimp only
      split_ifs with hc
      · exact ⟨nrSolve_ids bs Y it, calcBranchFlows_ids _ brs⟩
      · exact ⟨rfl, rfl⟩

lemma applyContingency_ids (bs : List GridBus) (brs : List GridBranch)
    (c : Contingency) :
    ((applyContingency bs brs c).1.1).map GridBus.id = bs.map GridBus.id ∧
    ((applyContingency bs brs c).1.2).map GridBranch.id = brs.map GridBranch.id := by
  unfold applyContingency
  split_ifs <;> try exact ⟨rfl, rfl⟩
  · cases findBranch brs c.component_id with
    | none => exact ⟨rfl, rfl⟩
    | some _ => exact ⟨rfl, setBranchOnline_ids brs c.component_id false⟩
  · cases findBus bs c.component_id with
    | none => exact ⟨rfl, rfl⟩
    | some _ => exact ⟨setBusPQ_ids bs c.component_id 0 0, rfl⟩

lemma setBusPQ_cons_skip (b : GridBus) (rest : List GridBus) (bid : String)
    (p q : ℝ) (h : ¬ b.id = bid) :
    setBusPQ (b :: rest) bid p q = b :: setBusPQ rest bid p q := by
  simp only [setBusPQ]
  rw [if_neg h]

lemma setBranchOnline_cons_skip (b : GridBranch) (rest : List GridBranch)
    (bid : String) (v : Bool) (h : ¬ b.id = bid) :
    setBranchOnline (b :: rest) bid v = b :: setBranchOnline rest bid v := by
  simp only [setBranchOnline]
  rw [if_neg h]

lemma foldl_setBusPQ_cons (b : GridBus) (snap : List (String × ℝ × ℝ))
    (h : ∀ e ∈ snap, e.1 ≠ b.id) :
    ∀ rest : List GridBus,
    snap.foldl (fun acc e => setBusPQ acc e.1 e.2.1 e.2.2) (b :: rest)
      = b :: snap.foldl (fun acc e => setBusPQ acc e.1 e.2.1 e.2.2) rest := by
  induction snap with
  | nil => intro rest; rfl
  | cons e tail ih =>
    intro rest
    rw [List.foldl_cons, List.foldl_cons]
    rw [setBusPQ_cons_skip b rest e.1 e.2.1 e.2.2
      (fun hb => (h e (by simp)) hb.symm)]
    exact ih (fun e' he' => h e' (by simp [he'])) _

lemma foldl_setBranchOnline_cons (b : GridBranch) (snap : List (String × Bool))
    (h : ∀ e ∈ snap, e.1 ≠ b.id) :
    ∀ rest : List GridBranch,
    snap.foldl (fun acc e => setBranchOnline acc e.1 e.2) (b :: rest)
      = b :: snap.foldl (fun acc e => setBranchOnline acc e.1 e.2) rest := by
  induction snap with
  | nil => intro rest; rfl
  | cons e tail ih =>
    intro rest
    rw [List.foldl_cons, List.foldl_cons]
    rw [setBranchOnline_cons_skip b rest e.1 e.2
      (fun hb => (h e (by simp)) hb.symm)]
    exact ih (fun e' he' => h e' (by simp [he'])) _

lemma restoreBuses_proj (bs : List GridBus) :
    ∀ bs' : List GridBus, (bs.map GridBus.id).Nodup →
    bs'.map GridBus.id = bs.map GridBus.id →
    projBuses ((bs.map (fun b => (b.id, b.gen_p, b.gen_q))).foldl
        (fun acc e => setBusPQ acc e.1 e.2.1 e.2.2) bs') = projBuses bs := by
  induction bs with
  | nil =>
    intro bs' _ hids
    rw [List.map_eq_nil_iff.mp hids]
    rfl
  | cons b rest ih =>
    intro bs' hnd hids
    cases bs' with
    | nil => simp at hids
    | cons b' rest' =>
      simp only [List.map_cons, List.cons.injEq] at hids
      obtain ⟨hid, hrest⟩ := hids
      rw [List.map_cons, List.foldl_cons]
      rw [show setBusPQ (b' :: rest') b.id b.gen_p b.gen_q
          = { b' with gen_p := b.gen_p, gen_q := b.gen_q } :: rest' by
        simp only [setBusPQ]; rw [if_pos hid]]
      rw [foldl_setBusPQ_cons _ _ ?hskip _]
      case hskip =>
        intro e he
        simp only [List.mem_map] at he
        obtain ⟨bb, hbb, rfl⟩ := he
        dsimp only
        rw [hid]
        intro hcontra
        exact (List.nodup_cons.mp hnd).1 (List.mem_map.mpr ⟨bb, hbb, hcontra⟩)
      have htail := ih rest' (List.nodup_cons.mp hnd).2 hrest
      simp only [projBuses, List.map_cons] at htail ⊢
      rw [htail]
      simp [hid]

lemma restoreBranches_proj (brs : List GridBranch) :
    ∀ brs' : List GridBranch, (brs.map GridBranch.id).Nodup →
    brs'.map GridBranch.id = brs.map GridBranch.id →
    projBranches ((brs.map (fun b => (b.id, b.is_online))).foldl
        (fun acc e => setBranchOnline acc e.1 e.2) brs') = projBranches brs := by
  induction brs with
  | nil =>
    intro brs' _ hids
    rw [List.map_eq_nil_iff.mp hids]
    rfl
  | cons b rest ih =>
    intro brs' hnd hids
    cases brs' with
    | nil => simp at hids
    | cons b' rest' =>
      simp only [List.map_cons, List.cons.injEq] at hids
      obtain ⟨hid, hrest⟩ := hids
      rw [List.map_cons, List.foldl_cons]
      rw [show setBranchOnline (b' :: rest') b.id b.is_online
          = { b' with is_online := b.is_online } :: rest' by
        simp only [setBranchOnline]; rw [if_pos hid]]
      rw [foldl_setBranchOnline_cons _ _ ?hskip _]
      case hskip =>
        intro e he
        simp only [List.mem_map] at he
        obtain ⟨bb, hbb, rfl⟩ := he
        dsimp only
        rw [hid]
        intro hcontra
        exact (List.nodup_cons.mp hnd).1 (List.mem_map.mpr ⟨bb, hbb, hcontra⟩)
      have htail := ih rest' (List.nodup_cons.mp hnd).2 hrest
      simp only [projBranches, List.map_cons] at htail ⊢
      rw [htail]
      simp [hid]

lemma restore_proj (bs : List GridBus) (brs : List GridBranch)
    (bs' : List GridBus) (brs' : List GridBranch)
    (hnb : (bs.map GridBus.id).Nodup) (hnr : (brs.map GridBranch.id).Nodup)
    (hib : bs'.map GridBus.id = bs.map GridBus.id)
    (hir : brs'.map GridBranch.id = brs.map GridBranch.id) :
    projBuses (restoreSystemState bs' brs' (saveSystemState bs brs)).1 = projBuses bs ∧
    projBranches (restoreSystemState bs' brs' (saveSystemState bs brs)).2
      = projBranches brs := by
  unfold restoreSystemState saveSystemState
  exact ⟨restoreBuses_proj bs bs' hnb hib, restoreBranches_proj brs brs' hnr hir⟩

lemma runSingle_proj (bs : List GridBus) (brs : List GridBranch) (it : ℕ)
    (c : Contingency)
    (hnb : (bs.map GridBus.id).Nodup) (hnr : (brs.map GridBranch.id).Nodup) :
    projBuses (runSingleContingency bs brs it c).1.1 = projBuses bs ∧
    projBranches (runSingleContingency bs brs it c).1.2 = projBranches brs := by
  unfold runSingleContingency
  have happly := applyContingency_ids bs brs c
  split
  · rename_i net1 e heq
    rw [heq] at happly
    exact restore_proj bs brs net1.1 net1.2 hnb hnr happly.1 happly.2
  · rename_i net1 u heq
    rw [heq] at happly
    have hsolve := solvePowerFlow_ids net1.1 net1.2 it
    split
    · rename_i net2 e heq2
      rw [heq2] at hsolve
      exact restore_proj bs brs net2.1 net2.2 hnb hnr
        (hsolve.1.trans happly.1) (hsolve.2.trans happly.2)
    · rename_i net2 converged heq2
      rw [heq2] at hsolve
      exact restore_proj bs brs net2.1 net2.2 hnb hnr
        (hsolve.1.trans happly.1) (hsolve.2.trans happly.2)

lemma runSeq_proj (it : ℕ) (cs : List Contingency) :
    ∀ (net : List GridBus × List GridBranch) (results : List ContingencyResult),
    (net.1.map GridBus.id).Nodup → (net.2.map GridBranch.id).Nodup →
    projBuses (runContingenciesSeq it cs net results).1.1 = projBuses net.1 ∧
    projBranches (runContingenciesSeq it cs net results).1.2 = projBranches net.2 := by
  induction cs with
  | nil => intro net results _ _; exact ⟨rfl, rfl⟩
  | cons c rest ih =>
    intro net results hnb hnr
    rw [runContingenciesSeq]
    have hsingle := runSingle_proj net.1 net.2 it c hnb hnr
    split
    · rename_i net' r heq
      rw [heq] at hsingle
      dsimp only at hsingle
      have hb' : net'.1.map GridBus.id = net.1.map GridBus.id := by
        have := congrArg (List.map Prod.fst) hsingle.1
        rwa [projBuses_fst, projBuses_fst] at this
      have hr' : net'.2.map GridBranch.id = net.2.map GridBranch.id := by
        have := congrArg (List.map Prod.fst) hsingle.2
        rwa [projBranches_fst, projBranches_fst] at this
      have hrec := ih net' (results ++ [r])
        (by rw [hb']; exact hnb) (by rw [hr']; exact hnr)
      exact ⟨hrec.1.trans hsingle.1, hrec.2.trans hsingle.2⟩
    · rename_i net' e heq
      rw [heq] at hsingle
      dsimp only at hsingle
      have hb' : net'.1.map GridBus.id = net.1.map GridBus.id := by
        have := congrArg (List.map Prod.fst) hsingle.1
        rwa [projBuses_fst, projBuses_fst] at this
      have hr' : net'.2.map GridBranch.id = net.2.map GridBranch.id := by
        have := congrArg (List.map Prod.fst) hsingle.2
        rwa [projBranches_fst, projBranches_fst] at this
      have hrec := ih net'
        (results ++ [{ contingency_id := c.cid, component_type := c.ctype,
                       component_id := c.component_id, converged := false,
                       critical := true }])
        (by rw [hb']; exact hnb) (by rw [hr']; exact hnr)
      exact ⟨hrec.1.trans hsingle.1, hrec.2.trans hsingle.2⟩

/-- C2: after a single contingency run (whether it returns a result or
raises) and after the whole N-1 analysis, every branch's online flag and
every bus's generator P and Q are exactly their pre-analysis values. -/
theorem c2_contingency_analysis_restores_state (bs : List GridBus)
    (brs : List GridBranch) (maxIter : ℕ)
    (hnb : (bs.map GridBus.id).Nodup) (hnr : (brs.map GridBranch.id).Nodup) :
    (∀ c : Contingency,
      projBuses (runSingleContingency bs brs maxIter c).1.1 = projBuses bs ∧
      projBranches (runSingleContingency bs brs maxIter c).1.2 = projBranches brs) ∧
    projBuses (runN1ContingencyAnalysis bs brs maxIter).1.1 = projBuses bs ∧
    projBranches (runN1ContingencyAnalysis bs brs maxIter).1.2 = projBranches brs :=
  ⟨fun c => runSingle_proj bs brs maxIter c hnb hnr,
   (runSeq_proj maxIter (genContingencies bs brs) (bs, brs) [] hnb hnr).1,
   (runSeq_proj maxIter (genContingencies bs brs) (bs, brs) [] hnb hnr).2⟩

/-- A contingency referencing a missing branch id: its perturbation raises
KeyError inside the try block. -/
def c2Cont : Contingency := { cid := "line_X", ctype := "line", component_id := "X" }

/-- Witness for C2 on the 2-bus system with a contingency whose
perturbation raises: the run reports the exception and the state
projections are nevertheless restored. -/
theorem c2_contingency_analysis_restores_state_witness :
    (runSingleContingency tbBuses tbBranches 20 c2Cont).2 = .error () ∧
    projBuses (runSingleContingency tbBuses tbBranches 20 c2Cont).1.1
      = projBuses tbBuses ∧
    projBranches (runSingleContingency tbBuses tbBranches 20 c2Cont).1.2
      = projBranches tbBranches :=
  ⟨rfl,
   ((c2_contingency_analysis_restores_state tbBuses tbBranches 20
      (by simp [tbBuses, tbBus1, tbBus2])
      (by simp [tbBranches, tbBranch])).1 c2Cont).1,
   ((c2_contingency_analysis_restores_state tbBuses tbBranches 20
      (by simp [tbBuses, tbBus1, tbBus2])
      (by simp [tbBranches, tbBranch])).1 c2Cont).2⟩

/-! ### Blackstart capability and restoration (european_grid_game.py,
european_power_flow_simulator.py)

The code reads `self.standards.blackstart.*`, but european_grid_standards.py
defines no `blackstart` attribute; the two constants below are the missing
BlackstartStandards entries, modelled from the spec. -/

/-- Modelled from the spec: `standards.blackstart.minimum_blackstart_capability`
(minimum blackstart-capacity fraction, 10%), missing from
european_grid_standards.py although callers in three modules read it. -/
def minimumBlackstartCapability : ℚ := 10/100

/-- Modelled from the spec: `standards.blackstart.load_pickup_increment_max`
(load-pickup increment ceiling, 25%), missing from
european_grid_standards.py although callers read it. -/
def loadPickupIncrementMax : ℚ := 25/100

/-- A EuropeanGridGame component dictionary as created by add_component:
the keys `type`, `config`, `x`, `y`, `status`, `output`, `load`, plus the
keys that other methods may add later, modelled as Options (Python dict
access of an absent key raises KeyError).  add_component never creates a
top-level `capacity` key — the capacity sits inside `config`. -/
structure GameComp2 where
  ctype : String
  config_capacity : ℚ
  x : ℚ := 0
  y : ℚ := 0
  status : String := "online"
  output : ℚ := 0
  load : ℚ := 0
  capacity : Option ℚ := none
  blackstart_capable : Option Bool := none
  blackstart_time : Option ℚ := none
  is_active : Option Bool := none
  current_output : Option ℚ := none
deriving DecidableEq

/-- The dictionary literal built by EuropeanGridGame.add_component. -/
def mkGameComponent (ctype : String) (cfg_capacity : ℚ) (x y : ℚ) : GameComp2 :=
  { ctype := ctype, config_capacity := cfg_capacity, x := x, y := y,
    status := "online",
    output := if 0 < cfg_capacity then cfg_capacity else 0,
    load := if cfg_capacity < 0 then |cfg_capacity| else 0 }

structure BlackstartUnit where
  uid : String
  capacity : ℚ
  utype : String
  start_time : ℚ
deriving DecidableEq

/-- One loop iteration of EuropeanGridGame.assess_blackstart_capability:
both the blackstart-unit branch and the demand branch read
`component['capacity']`, a key the game's components do not have. -/
def gameAssessStep (acc : List BlackstartUnit × ℚ × ℚ) (e : String × GameComp2) :
    Except Unit (List BlackstartUnit × ℚ × ℚ) :=
  let comp := e.2
  let step1 : Except Unit (List BlackstartUnit × ℚ) :=
    if comp.blackstart_capable.getD false then
      match comp.capacity with
      | none => .error ()
      | some cap =>
          .ok (acc.1 ++ [{ uid := e.1, capacity := cap, utype := comp.ctype,
                           start_time := comp.blackstart_time.getD 15 }],
               acc.2.1 + cap)
    else .ok (acc.1, acc.2.1)
  match step1 with
  | .error e => .error e
  | .ok (units, cap) =>
      match comp.capacity with
      | none => .error ()
      | some c => .ok (units, cap, if c < 0 then acc.2.2 + |c| else acc.2.2)

structure BlackstartAssessment where
  blackstart_units : List BlackstartUnit
  total_blackstart_capacity : ℚ
  total_demand : ℚ
  blackstart_percentage : ℚ
  meets_european_standard : Bool
  required_percentage : ℚ
deriving DecidableEq

/-- EuropeanGridGame.assess_blackstart_capability (with the spec-modelled
minimum in place of the missing standards entry). -/
def gameAssessBlackstart (components : List (String × GameComp2)) :
    Except Unit BlackstartAssessment :=
  match components.foldlM gameAssessStep ([], 0, 0) with
  | .error e => .error e
  | .ok (units, cap, demand) =>
      let percentage := if 0 < demand then cap / demand else 0
      .ok { blackstart_units := units, total_blackstart_capacity := cap,
            total_demand := demand, blackstart_percentage := percentage,
            meets_european_standard := decide (minimumBlackstartCapability ≤ percentage),
            required_percentage := minimumBlackstartCapability * 100 }

/-- C6 fails on the code: assessing a grid holding one component placed by
add_component raises KeyError at `component['capacity']` (the capacity is
stored only under `config`), instead of returning a structured result. -/
theorem c6_game_assessment_raises :
    gameAssessBlackstart [("comp_1", mkGameComponent "load_center" (-300) 0 0)]
      = .error () := rfl

/-- grid_types.GridComponent, the fields the simulator's assessment reads. -/
structure SimComponent where
  id : String
  ctype : String
  capacity : ℚ
  blackstart_capable : Bool := false
  generator_type : String := "unknown"
  start_time : ℚ := 15
deriving DecidableEq

/-- Sum of blackstart-capable generator capacity in
EuropeanACPowerFlowSimulator.assess_blackstart_capability. -/
def simTotalBlackstartCapacity (cs : List SimComponent) : ℚ :=
  ((cs.filter (fun c => c.ctype = "generator" && c.blackstart_capable)).map
    (fun c => c.capacity)).sum

/-- Total area demand in the simulator's assessment. -/
def simAreaDemand (cs : List SimComponent) : ℚ :=
  ((cs.filter (fun c => c.ctype = "load")).map (fun c => c.capacity)).sum

/-- The simulator's meets-standard flag: percentage stays 0.0 unless the
demand is positive, then is compared against the (spec-modelled) minimum. -/
def simAssessMeets (cs : List SimComponent) : Bool :=
  let demand := simAreaDemand cs
  let percentage := if 0 < demand then simTotalBlackstartCapacity cs / demand else 0
  decide (minimumBlackstartCapability ≤ percentage)

/-- The simulator variant of the assessment does satisfy the claimed
ratio characterisation whenever loads have nonnegative demand. -/
theorem simAssessMeets_iff_ratio (cs : List SimComponent)
    (hload : ∀ c ∈ cs, c.ctype = "load" → 0 ≤ c.capacity) :
    simAssessMeets cs = true ↔
      minimumBlackstartCapability ≤ simTotalBlackstartCapacity cs / simAreaDemand cs := by
  have hdemand : 0 ≤ simAreaDemand cs := by
    apply List.sum_nonneg
    intro q hq
    simp only [List.mem_map, List.mem_filter] at hq
    obtain ⟨c, ⟨hc, hload'⟩, rfl⟩ := hq
    exact hload c hc (by simpa using hload')
  unfold simAssessMeets
  dsimp only
  rcases lt_or_eq_of_le hdemand with hpos | hzero
  · rw [if_pos hpos]
    simp
  · rw [if_neg (by rw [← hzero]; exact lt_irrefl 0), ← hzero, div_zero]
    simp

structure RestStep where
  step : ℕ
  component_id : String
  component_type : String
  action : String
  capacity : ℚ
  time : ℚ
  phase : String
deriving DecidableEq

structure BlackstartScenarioState where
  components : List (String × GameComp2)
  blackstart_scenario_active : Bool
  current_restoration_phase : ℕ
  restoration_sequence : List RestStep
deriving DecidableEq

/-- First-match replacement in the component dictionary. -/
def updGameComp : List (String × GameComp2) → String → GameComp2 →
    List (String × GameComp2)
  | [], _, _ => []
  | e :: rest, cid, comp =>
      if e.1 = cid then (e.1, comp) :: rest else e :: updGameComp rest cid comp

/-- EuropeanGridGame.advance_restoration_sequence (with the spec-modelled
load-pickup ceiling in place of the missing standards entry).  Both the
restore_load branch and the generator branch read `component['capacity']`,
which raises KeyError for components created by add_component. -/
def advanceRestorationSequence (g : BlackstartScenarioState) :
    Except Unit (Option RestStep × BlackstartScenarioState) :=
  if g.blackstart_scenario_active = false ∨
      g.restoration_sequence.length ≤ g.current_restoration_phase then
    .ok (none, g)
  else
    let current_step := g.restoration_sequence.getD g.current_restoration_phase
      { step := 0, component_id := "", component_type := "", action := "",
        capacity := 0, time := 0, phase := "" }
    let cid := current_step.component_id
    let afterExec : Except Unit (List (String × GameComp2)) :=
      match g.components.find? (fun e => e.1 = cid) with
      | none => .ok g.components
      | some e =>
          let comp := { e.2 with is_active := some true }
          if current_step.action = "restore_load" then
            match comp.capacity with
            | none => .error ()
            | some cap =>
                let maxIncrement := |cap| * loadPickupIncrementMax
                .ok (updGameComp g.components cid
                  { comp with current_output := some (min |cap| maxIncrement) })
          else
            match comp.capacity with
            | none => .error ()
            | some cap =>
                .ok (updGameComp g.components cid
                  { comp with current_output := some (cap * (5/10)) })
    match afterExec with
    | .error e => .error e
    | .ok comps' =>
        let phase' := g.current_restoration_phase + 1
        let g' := { g with components := comps',
                           current_restoration_phase := phase' }
        let g'' := if g.restoration_sequence.length ≤ phase' then
            { g' with blackstart_scenario_active := false,
                      current_restoration_phase := 0 }
          else g'
        .ok (some current_step, g'')

/-- A 300 MW urban load placed through add_component. -/
def c7Load : GameComp2 := mkGameComponent "load_center" (-300) 0 0

/-- A restore_load step of the generated restoration sequence. -/
def c7Step : RestStep :=
  { step := 1, component_id := "comp_1", component_type := "load_center",
    action := "restore_load", capacity := 300, time := 5,
    phase := "load_restoration" }

/-- An active blackstart scenario about to execute the restore_load step. -/
def c7State : BlackstartScenarioState :=
  { components := [("comp_1", c7Load)], blackstart_scenario_active := true,
    current_restoration_phase := 0, restoration_sequence := [c7Step] }

/-- C7 fails on the code: executing the restore_load step raises KeyError
at `component['capacity']` (game components store the capacity only under
`config`), instead of setting the restored output to 25% of the demand. -/
theorem c7_restore_load_step_raises :
    advanceRestorationSequence c7State = .error () := rfl

end GridSpec
